import Mathlib

/-!
Verification of the star-history SEO server (`seo-server/frontend_service.go`).

Shallow embedding conventions:
* Go strings are modelled as `List Char` (`Str`); string concatenation via
  `fmt.Sprintf` of `%s` pieces becomes `++`.
* The file system is an explicit environment: `os.ReadFile` becomes a lookup in
  `Env.fs`; a failed read (error ignored in the Go code) yields the empty string,
  exactly as `string(nil)` does after `os.ReadFile` returns an error.
* Each HTTP handler is a pure function returning `(status, body)` together with
  the list of file paths it reads while serving one request, so that claims
  about "reads at request time" are statable.
-/

namespace StarHistory

/-- Go strings, modelled as lists of characters. -/
abbrev Str := List Char

/-- The newline character used by `strings.Join(metadataList, a newline)`. -/
def nl : Str := [Char.ofNat 10]

/-- Go struct `BlogFrontmatter` (declared outside `frontend_service.go`).
Modelled from the spec: ContentEntry has fields slug, title, excerpt,
featureImagePath (all strings, the last three optional i.e. possibly empty). -/
structure BlogFrontmatter where
  slug : Str
  title : Str
  excerpt : Str
  featureImage : Str
deriving DecidableEq

/-- Go struct `Metadata` with fields `Title`, `Description`, `ImageURL`
(frontend_service.go lines 126-130). -/
structure Metadata where
  title : Str
  description : Str
  imageURL : Str
deriving DecidableEq

/-- Go `getDefaultMetadata` (lines 132-138). -/
def getDefaultMetadata : Metadata :=
  { title := ("GitHub Star History").toList
  , description := ("View and compare GitHub star history graph of open source projects.").toList
  , imageURL := ("https://www.star-history.com/star-history.webp").toList }

/-- One character of Go `text/template.HTMLEscapeString`: NUL becomes U+FFFD,
double quote becomes an ampersand escape, apostrophe likewise, and the three
characters ampersand, less-than, greater-than become their named entities;
every other character is kept. -/
def escapeChar (c : Char) : Str :=
  if c = Char.ofNat 0 then [Char.ofNat 0xFFFD]
  else if c = Char.ofNat 34 then ("&#34;").toList
  else if c = Char.ofNat 39 then ("&#39;").toList
  else if c = '&' then ("&amp;").toList
  else if c = '<' then ("&lt;").toList
  else if c = '>' then ("&gt;").toList
  else [c]

/-- Go `template.HTMLEscapeString`, character by character. -/
def htmlEscapeString : Str → Str
  | [] => []
  | c :: rest => escapeChar c ++ htmlEscapeString rest

/-- Go `(m *Metadata) String()` (lines 140-157): the twelve head tags joined by
newlines, in source order. -/
def Metadata.String (m : Metadata) : Str :=
  List.intercalate nl
    [ ("<title>").toList ++ m.title ++ ("</title>").toList
    , ("<meta name=\"description\" content=\"").toList ++ m.description ++ ("\" />").toList
    , ("<meta property=\"og:title\" content=\"").toList ++ m.title ++ ("\" />").toList
    , ("<meta property=\"og:description\" content=\"").toList ++ m.description ++ ("\" />").toList
    , ("<meta property=\"og:image\" content=\"").toList ++ m.imageURL ++ ("\" />").toList
    , ("<meta property=\"og:type\" content=\"website\" />").toList
    , ("<meta property=\"twitter:title\" content=\"").toList ++ m.title ++ ("\" />").toList
    , ("<meta property=\"twitter:description\" content=\"").toList ++ m.description ++ ("\" />").toList
    , ("<meta property=\"twitter:image\" content=\"").toList ++ m.imageURL ++ ("\" />").toList
    , ("<meta name=\"twitter:card\" content=\"summary_large_image\" />").toList
    , ("<meta name=\"twitter:site\" content=\"star-history.com\" />").toList
    , ("<meta name=\"twitter:creator\" content=\"bytebase\" />").toList ]

/-- The metadata value computed inside Go `generateBlogMetadata` (lines 112-122):
start from the default and override each field whose source field is non-empty. -/
def resolveMetadata (instanceURL : Str) (blog : BlogFrontmatter) : Metadata :=
  let metadata := getDefaultMetadata
  let metadata :=
    if blog.title ≠ [] then
      { metadata with title := htmlEscapeString (blog.title ++ (" - GitHub Star History").toList) }
    else metadata
  let metadata :=
    if blog.excerpt ≠ [] then
      { metadata with description := htmlEscapeString blog.excerpt }
    else metadata
  let metadata :=
    if blog.featureImage ≠ [] then
      { metadata with imageURL := htmlEscapeString (instanceURL ++ blog.featureImage) }
    else metadata
  metadata

/-- Go `generateBlogMetadata` (lines 112-124): the resolved metadata, rendered. -/
def generateBlogMetadata (instanceURL : Str) (blog : BlogFrontmatter) : Str :=
  (resolveMetadata instanceURL blog).String

/-- The `MetadataResolver.resolve` of the spec: with no entry the site default is used
(the default page path of lines 84 and 100-102); with an entry, the override
rules of `generateBlogMetadata`. -/
def resolve (instanceURL : Str) : Option BlogFrontmatter → Metadata
  | none => getDefaultMetadata
  | some blog => resolveMetadata instanceURL blog

/-- Core of Go `strings.ReplaceAll`: scan left to right; the counter remembers
how many matched characters remain to be consumed after a replacement was
emitted. -/
def replGo (pat rep : Str) : Str → Nat → Str
  | [], _ => []
  | _ :: rest, k + 1 => replGo pat rep rest k
  | c :: rest, 0 =>
    if pat.isPrefixOf (c :: rest) then
      rep ++ replGo pat rep rest (pat.length - 1)
    else
      c :: replGo pat rep rest 0

/-- Go `strings.ReplaceAll(s, pat, rep)` for non-empty `pat` (both patterns used
by the source are non-empty literal markers): replace each non-overlapping
occurrence, left to right. -/
def replaceAll (s pat rep : Str) : Str :=
  replGo pat rep s 0

/-- The head placeholder marker (line 89). -/
def headMarker : Str := ("<!-- star-history.head.placeholder -->").toList

/-- The body placeholder marker (line 90). -/
def bodyMarker : Str := ("<!-- star-history.body.placeholder -->").toList

/-- The per-slug body comment `fmt.Sprintf` of line 90, slug inserted verbatim. -/
def bodyComment (slug : Str) : Str :=
  ("<!-- star-history.blog.").toList ++ slug ++ (" -->").toList

/-- Path of the HTML template build artifact (line 96). -/
def indexPath : Str := ("dist/index.html").toList

/-- Path of the content-index build artifact (line 105). -/
def dataPath : Str := ("dist/blog/data.json").toList

/-- A JSON value. Modelled from the spec: the content-index file is "an array of
entries with fields slug, title, excerpt, featureImagePath"; JSON null is not
modelled (no claim exercises it). -/
inductive Json where
  | str (s : Str)
  | num (n : Int)
  | bool (b : Bool)
  | arr (xs : List Json)
  | obj (fields : List (Str × Json))

/-- Go `encoding/json` decoding of one string-typed struct field: scan the
key/value pairs of the object in order; a string value under the key overwrites the
field, a value of any other type is a saved type error that leaves the field
unchanged; a missing key leaves the zero value (the empty string). -/
def getStrField (fields : List (Str × Json)) (key : Str) : Str :=
  fields.foldl
    (fun acc kv =>
      if kv.1 = key then
        match kv.2 with
        | Json.str s => s
        | _ => acc
      else acc)
    []

/-- Modelled from the spec: the JSON object keys of a content entry are slug,
title, excerpt, featureImagePath (the `BlogFrontmatter` struct declaration is
outside `frontend_service.go`). -/
def slugKey : Str := ("slug").toList

/-- Content-entry JSON key for the title field. -/
def titleKey : Str := ("title").toList

/-- Content-entry JSON key for the excerpt field. -/
def excerptKey : Str := ("excerpt").toList

/-- Content-entry JSON key for the feature-image field. -/
def featureImageKey : Str := ("featureImagePath").toList

/-- Go `encoding/json` decoding of one catalog element into `BlogFrontmatter`:
an object decodes field-wise (absent or ill-typed fields keep their zero
value); an element of any other type is a saved type error that leaves the
freshly allocated element at its zero value. Either way decoding continues
with the next element. -/
def decodeBlog : Json → BlogFrontmatter
  | Json.obj fields =>
    { slug := getStrField fields slugKey
    , title := getStrField fields titleKey
    , excerpt := getStrField fields excerptKey
    , featureImage := getStrField fields featureImageKey }
  | _ => { slug := [], title := [], excerpt := [], featureImage := [] }

/-- Go `json.Unmarshal(rawBlogsJSON, &blogs)` applied to the initial empty slice
(lines 106-108): `none` stands for a read failure or syntactically invalid JSON
(Go validates the whole input before decoding, leaving the slice empty); a
top-level value that is not an array is a type error that also leaves the
slice empty; an array decodes element-wise. -/
def decodeBlogs : Option Json → List BlogFrontmatter
  | none => []
  | some (Json.arr xs) => xs.map decodeBlog
  | some _ => []

/-- The process environment: raw file contents by path, plus the parse result of
the content-index file (`none` on read or parse failure), standing for
`os.ReadFile` composed with the whole-input validity check of `encoding/json`. -/
structure Env where
  fs : Str → Str
  blogJson : Option Json

/-- Go `getRawIndexHTML` (lines 95-98): read the template; on error the bytes
are nil and the result is the empty string, which the `Env.fs` lookup returns
directly for an unreadable path. -/
def getRawIndexHTML (env : Env) : Str :=
  env.fs indexPath

/-- Go `getDefaultIndexHTML` (lines 100-102). -/
def getDefaultIndexHTML (env : Env) : Str :=
  replaceAll (getRawIndexHTML env) headMarker (getDefaultMetadata.String)

/-- Go `getBlogForntmatters` (lines 104-110). -/
def getBlogForntmatters (env : Env) : List BlogFrontmatter :=
  decodeBlogs env.blogJson

/-- Go closure `getBlogFrontmatterBySlug` (lines 71-78): linear scan, first
match wins. -/
def getBlogFrontmatterBySlug (blogs : List BlogFrontmatter) (slug : Str) : Option BlogFrontmatter :=
  match blogs with
  | [] => none
  | blog :: rest =>
    if blog.slug = slug then some blog else getBlogFrontmatterBySlug rest slug

/-- The opening `<urlset>` tag with its namespace declarations (line 57). -/
def urlsetOpen : Str :=
  ("<urlset xmlns=\"http://www.sitemaps.org/schemas/sitemap/0.9\" xmlns:news=\"http://www.google.com/schemas/sitemap-news/0.9\" xmlns:xhtml=\"http://www.w3.org/1999/xhtml\" xmlns:mobile=\"http://www.google.com/schemas/sitemap-mobile/1.0\" xmlns:image=\"http://www.google.com/schemas/sitemap-image/1.1\" xmlns:video=\"http://www.google.com/schemas/sitemap-video/1.1\">").toList

/-- The closing `</urlset>` tag (line 57). -/
def urlsetClose : Str := ("</urlset>").toList

/-- One sitemap element, `fmt.Sprintf` of line 55: the location is the instance
URL, the literal `/blog/` segment and the slug, all inserted verbatim. -/
def sitemapURLElement (instanceURL : Str) (blog : BlogFrontmatter) : Str :=
  ("<url><loc>").toList ++ (instanceURL ++ ("/blog/").toList ++ blog.slug) ++ ("</loc></url>").toList

/-- The sitemap body built by the handler of lines 52-59: per-entry elements in
catalog order, joined by newlines, wrapped in the `<urlset>` root. -/
def sitemapCode (instanceURL : Str) (blogs : List BlogFrontmatter) : Str :=
  urlsetOpen ++ List.intercalate nl (blogs.map (sitemapURLElement instanceURL)) ++ urlsetClose

/-- An HTTP response: status code and body. -/
abbrev Response := Nat × Str

/-- The `/blog/:blogSlug` handler (lines 80-92). `rawIndexHTML` and `blogs` are
the values captured at route registration; the not-found branch calls
`getDefaultIndexHTML()` afresh, which reads the template file during the
request — the second component lists the paths read while serving. -/
def blogRouteHandler (env : Env) (instanceURL : Str) (slug : Str) : Response × List Str :=
  let rawIndexHTML := getRawIndexHTML env
  let blogs := getBlogForntmatters env
  match getBlogFrontmatterBySlug blogs slug with
  | none => ((200, getDefaultIndexHTML env), [indexPath])
  | some blog =>
    ((200,
      replaceAll
        (replaceAll rawIndexHTML headMarker (generateBlogMetadata instanceURL blog))
        bodyMarker (bodyComment slug)), [])

/-- The catch-all `GET *` handler (lines 62-64): it serves the
`defaultIndexHTML` value captured at route registration and reads nothing. -/
def catchAllHandler (env : Env) : Response × List Str :=
  ((200, getDefaultIndexHTML env), [])

/-- The `GET /sitemap.xml` handler (lines 52-59): it serves the sitemap built
from the catalog captured at route registration and reads nothing. -/
def sitemapHandler (env : Env) (instanceURL : Str) : Response × List Str :=
  ((200, sitemapCode instanceURL (getBlogForntmatters env)), [])

/-- File reads performed by `registerFileRoutes` (lines 31-33):
`getDefaultIndexHTML()` reads the template, `getBlogForntmatters()` reads the
content index. -/
def registerFileRoutesReads : List Str := [indexPath, dataPath]

/-- File reads performed by `registerBlogRoutes` (lines 67-69):
`getRawIndexHTML()` reads the template, `getBlogForntmatters()` reads the
content index again. -/
def registerBlogRoutesReads : List Str := [indexPath, dataPath]

/-- File reads performed by `Serve` (lines 26-29) before any request is
handled: both registration functions run, in order. -/
def serveReads : List Str := registerFileRoutesReads ++ registerBlogRoutesReads

/-- A character is raw markup if it is one of less-than, greater-than, or the
double quote; `noRawChar` holds when it is none of them. -/
def noRawChar (c : Char) : Bool :=
  !(c == '<') && !(c == '>') && !(c == Char.ofNat 34)

/-- A string free of raw less-than, greater-than and double-quote characters. -/
def noRawStr (s : Str) : Bool :=
  s.all noRawChar

theorem htmlEscapeString_append (a b : Str) :
    htmlEscapeString (a ++ b) = htmlEscapeString a ++ htmlEscapeString b := by
  induction a with
  | nil => rfl
  | cons c rest ih => simp [htmlEscapeString, ih]

theorem noRawStr_escapeChar (c : Char) : noRawStr (escapeChar c) = true := by
  unfold escapeChar
  repeat' split
  all_goals first
    | decide
    | simp_all [noRawStr, noRawChar]

theorem noRawStr_append (a b : Str) :
    noRawStr (a ++ b) = (noRawStr a && noRawStr b) := by
  simp [noRawStr]

theorem noRawStr_htmlEscapeString (s : Str) : noRawStr (htmlEscapeString s) = true := by
  induction s with
  | nil => decide
  | cons c rest ih =>
    rw [htmlEscapeString, noRawStr_append, noRawStr_escapeChar, ih]
    rfl

/-- Normal form of `resolveMetadata`: each field independently either keeps the
site default or is overridden, depending only on its own source field. -/
theorem resolveMetadata_eq (base : Str) (e : BlogFrontmatter) :
    resolveMetadata base e =
      { title :=
          if e.title = [] then getDefaultMetadata.title
          else htmlEscapeString (e.title ++ (" - GitHub Star History").toList)
      , description :=
          if e.excerpt = [] then getDefaultMetadata.description
          else htmlEscapeString e.excerpt
      , imageURL :=
          if e.featureImage = [] then getDefaultMetadata.imageURL
          else htmlEscapeString (base ++ e.featureImage) } := by
  by_cases h1 : e.title = [] <;> by_cases h2 : e.excerpt = [] <;>
    by_cases h3 : e.featureImage = [] <;>
    simp [resolveMetadata, h1, h2, h3]

/-- C1: `resolve` starts from the fixed site-default metadata and overrides only
the fields whose entry field is non-empty — a non-empty title gives the escaped
title plus site suffix, a non-empty excerpt gives the escaped excerpt as
description, a non-empty feature-image path gives the escaped instance URL plus
path as image URL; an entry with all optional fields empty, and likewise no
entry at all, yields exactly the site-default metadata. -/
theorem c1_resolve_override_rules (base : Str) (e : BlogFrontmatter) (s : Str) :
    resolve base (some e) =
      { title :=
          if e.title = [] then getDefaultMetadata.title
          else htmlEscapeString (e.title ++ (" - GitHub Star History").toList)
      , description :=
          if e.excerpt = [] then getDefaultMetadata.description
          else htmlEscapeString e.excerpt
      , imageURL :=
          if e.featureImage = [] then getDefaultMetadata.imageURL
          else htmlEscapeString (base ++ e.featureImage) }
    ∧ resolve base none = getDefaultMetadata
    ∧ resolve base (some { slug := s, title := [], excerpt := [], featureImage := [] })
        = getDefaultMetadata := by
  refine ⟨resolveMetadata_eq base e, rfl, ?_⟩
  simp [resolve, resolveMetadata]

/-- C2: untrusted entry text is HTML-escaped in the resolved metadata, for
every entry: the resolved title is the default for an empty entry title and
otherwise exactly the escaped entry title followed by the (escape-invariant)
site suffix; the escaped entry title is always a prefix of the resolved title,
so a non-empty title is contained in HTML-escaped form; and none of the three
resolved fields — title, description, image URL — ever contains a raw
less-than, greater-than, or double-quote character, whatever the entry
contains, so a title containing a script tag can never appear as a parseable
tag. -/
theorem c2_resolved_metadata_is_escaped (base : Str) (e : BlogFrontmatter) :
    (resolve base (some e)).title
        = (if e.title = [] then getDefaultMetadata.title
           else htmlEscapeString e.title ++ (" - GitHub Star History").toList)
    ∧ List.IsPrefix (htmlEscapeString e.title) ((resolve base (some e)).title)
    ∧ noRawStr (resolve base (some e)).title = true
    ∧ noRawStr (resolve base (some e)).description = true
    ∧ noRawStr (resolve base (some e)).imageURL = true := by
  have hres : resolve base (some e) = resolveMetadata base e := rfl
  rw [hres, resolveMetadata_eq base e]
  dsimp only
  refine ⟨?_, ?_, ?_, ?_, ?_⟩
  · by_cases h : e.title = []
    · rw [if_pos h, if_pos h]
    · rw [if_neg h, if_neg h, htmlEscapeString_append]
      congr 1
  · by_cases h : e.title = []
    · rw [if_pos h, h]
      exact List.nil_prefix
    · rw [if_neg h, htmlEscapeString_append]
      exact ⟨htmlEscapeString ((" - GitHub Star History").toList), rfl⟩
  · by_cases h : e.title = []
    · rw [if_pos h]
      decide
    · rw [if_neg h]
      exact noRawStr_htmlEscapeString _
  · split
    · decide
    · exact noRawStr_htmlEscapeString _
  · split
    · decide
    · exact noRawStr_htmlEscapeString _

/-- The empty environment: no readable files, no parsable content index. -/
def envEmpty : Env :=
  { fs := fun _ => [], blogJson := none }

/-- C3: for a slug not present in the catalog, the blog route responds 200 with
a body equal to the body of the catch-all route — the default page, i.e. the raw
template with the head placeholder replaced by the rendered default metadata. -/
theorem c3_unknown_slug_is_default_page (env : Env) (base slug : Str)
    (h : getBlogFrontmatterBySlug (getBlogForntmatters env) slug = none) :
    (blogRouteHandler env base slug).1 = (catchAllHandler env).1
    ∧ (blogRouteHandler env base slug).1.1 = 200
    ∧ (blogRouteHandler env base slug).1.2
        = replaceAll (getRawIndexHTML env) headMarker (getDefaultMetadata.String) := by
  refine ⟨?_, ?_, ?_⟩ <;> simp [blogRouteHandler, catchAllHandler, h, getDefaultIndexHTML]

theorem c3_unknown_slug_is_default_page_witness :
    getBlogFrontmatterBySlug (getBlogForntmatters envEmpty) (("nope").toList) = none
    ∧ ((blogRouteHandler envEmpty [] (("nope").toList)).1 = (catchAllHandler envEmpty).1
      ∧ (blogRouteHandler envEmpty [] (("nope").toList)).1.1 = 200
      ∧ (blogRouteHandler envEmpty [] (("nope").toList)).1.2
          = replaceAll (getRawIndexHTML envEmpty) headMarker (getDefaultMetadata.String)) :=
  ⟨rfl, c3_unknown_slug_is_default_page envEmpty [] (("nope").toList) rfl⟩

/-- The status of the blog route is 200 in both branches. -/
theorem blogRouteHandler_status (env : Env) (base slug : Str) :
    (blogRouteHandler env base slug).1.1 = 200 := by
  cases hM : getBlogFrontmatterBySlug (getBlogForntmatters env) slug <;>
    simp [blogRouteHandler, hM]

/-- An arbitrary environment with its template file made unreadable (the read
of that one path yields the empty byte string); all other files and the
content index are untouched. -/
def withUnreadableTemplate (env : Env) : Env :=
  { fs := fun p => if p = indexPath then [] else env.fs p
  , blogJson := env.blogJson }

/-- An arbitrary environment with its content index made unreadable or
unparsable; the file system is untouched. -/
def withUnparsableIndex (env : Env) : Env :=
  { fs := env.fs, blogJson := none }

/-- C7: startup load failures degrade to defined defaults and never propagate
an error, each failure independently of the other: in any environment whose
template file cannot be read the raw template is the empty string, in any
environment whose content index cannot be read or parsed the catalog is the
empty sequence, and in every environment whatsoever — including both failing
ones — the service still serves: the blog, catch-all and sitemap handlers all
respond with status 200. -/
theorem c7_load_failures_degrade (env : Env) (base slug : Str) :
    getRawIndexHTML (withUnreadableTemplate env) = []
    ∧ getBlogForntmatters (withUnparsableIndex env) = []
    ∧ (blogRouteHandler env base slug).1.1 = 200
    ∧ (catchAllHandler env).1.1 = 200
    ∧ (sitemapHandler env base).1.1 = 200 := by
  refine ⟨?_, rfl, blogRouteHandler_status env base slug, rfl, rfl⟩
  simp [getRawIndexHTML, withUnreadableTemplate]

/-- C9 counterexample: at startup each of the two files is read twice, not
once, and a request for a slug missing from the catalog makes the blog handler
read the template file again — so the claim that no request handler performs a
file read is false at this concrete input. -/
theorem c9_counterexample :
    serveReads = [indexPath, dataPath, indexPath, dataPath]
    ∧ (blogRouteHandler envEmpty [] (("nope").toList)).2 = [indexPath]
    ∧ (blogRouteHandler envEmpty [] (("nope").toList)).2 ≠ [] := by
  exact ⟨rfl, rfl, by decide⟩

/-- C9 amended: the template and content-index files are each read twice at
startup (once per route-registration pass); at request time the only file read
is the blog handler re-reading the template when the requested slug is not in
the catalog, while requests for known slugs, the catch-all and the sitemap
perform no reads. -/
theorem c9_reads_amended (env : Env) (base slug : Str) :
    serveReads = [indexPath, dataPath] ++ [indexPath, dataPath]
    ∧ (blogRouteHandler env base slug).2
        = (match getBlogFrontmatterBySlug (getBlogForntmatters env) slug with
           | none => [indexPath]
           | some _ => [])
    ∧ (catchAllHandler env).2 = []
    ∧ (sitemapHandler env base).2 = [] := by
  refine ⟨rfl, ?_, rfl, rfl⟩
  cases hM : getBlogFrontmatterBySlug (getBlogForntmatters env) slug <;>
    simp [blogRouteHandler, hM]

/-- If the non-empty pattern occurs in the string, the replacement occurs in
the result of the replacement scan. -/
theorem infix_replGo (pat rep : Str) (hpat : pat ≠ []) :
    ∀ s : Str, pat <:+: s → rep <:+: replGo pat rep s 0 := by
  intro s
  induction s with
  | nil =>
    intro h
    exact absurd (List.infix_nil.mp h) hpat
  | cons c rest ih =>
    intro h
    by_cases hp : pat.isPrefixOf (c :: rest)
    · have hstep : replGo pat rep (c :: rest) 0
          = rep ++ replGo pat rep rest (pat.length - 1) := by
        simp [replGo, hp]
      rw [hstep]
      exact ⟨[], replGo pat rep rest (pat.length - 1), rfl⟩
    · have hinf : pat <:+: rest := by
        rcases List.infix_cons_iff.mp h with hpre | hinf
        · exact absurd ( List.isPrefixOf_iff_prefix.mpr hpre) hp
        · exact hinf
      have hstep : replGo pat rep (c :: rest) 0 = c :: replGo pat rep rest 0 := by
        simp [replGo, hp]
      rw [hstep]
      exact List.infix_cons (ih hinf)

/-- If the non-empty pattern occurs in the string, the replacement occurs in
the result of `replaceAll`. -/
theorem infix_replaceAll (pat rep s : Str) (hpat : pat ≠ []) (h : pat <:+: s) :
    rep <:+: replaceAll s pat rep :=
  infix_replGo pat rep hpat s h

/-- Environment for the C10 counterexample and witness: the template is the two
placeholder markers in sequence and the catalog holds one entry with slug a. -/
def envBoth : Env :=
  { fs := fun p => if p = indexPath then headMarker ++ bodyMarker else []
  , blogJson := some (Json.arr [Json.obj [(slugKey, Json.str (("a").toList))]]) }

/-- C10 counterexample: for a template containing the head placeholder, the
response body for a known slug is not the raw template with only the body
placeholder replaced — the head placeholder is substituted as well. -/
theorem c10_counterexample :
    (blogRouteHandler envBoth [] (("a").toList)).1.2
      ≠ replaceAll (getRawIndexHTML envBoth) bodyMarker (bodyComment (("a").toList)) := by
  decide

/-- C10 amended: for a slug found in the catalog, the response is 200 and the
body is — unconditionally — the raw template with every occurrence of the
head placeholder replaced by the rendered blog metadata and then every
occurrence of the body placeholder replaced by exactly the comment built from
the slug, inserted verbatim with no escaping; and whenever the body
placeholder occurs in the head-substituted template, the response body
contains that comment. -/
theorem c10_known_slug_body (env : Env) (base slug : Str) (blog : BlogFrontmatter)
    (hB : getBlogFrontmatterBySlug (getBlogForntmatters env) slug = some blog) :
    (blogRouteHandler env base slug).1
      = (200,
          replaceAll
            (replaceAll (getRawIndexHTML env) headMarker (generateBlogMetadata base blog))
            bodyMarker (bodyComment slug))
    ∧ ((bodyMarker <:+:
          replaceAll (getRawIndexHTML env) headMarker (generateBlogMetadata base blog)) →
        bodyComment slug <:+: (blogRouteHandler env base slug).1.2) := by
  have h1 : (blogRouteHandler env base slug).1
      = (200,
          replaceAll
            (replaceAll (getRawIndexHTML env) headMarker (generateBlogMetadata base blog))
            bodyMarker (bodyComment slug)) := by
    simp [blogRouteHandler, hB]
  refine ⟨h1, fun hM => ?_⟩
  rw [h1]
  exact infix_replaceAll bodyMarker (bodyComment slug) _ (by decide) hM

/-- The catalog entry with slug a and no optional fields. -/
def entryA : BlogFrontmatter :=
  { slug := ("a").toList, title := [], excerpt := [], featureImage := [] }

set_option maxRecDepth 8000 in
theorem c10_known_slug_body_witness :
    getBlogFrontmatterBySlug (getBlogForntmatters envBoth) (("a").toList) = some entryA
    ∧ (blogRouteHandler envBoth [] (("a").toList)).1
        = (200,
            replaceAll
              (replaceAll (getRawIndexHTML envBoth) headMarker (generateBlogMetadata [] entryA))
              bodyMarker (bodyComment (("a").toList)))
    ∧ bodyComment (("a").toList) <:+: (blogRouteHandler envBoth [] (("a").toList)).1.2 :=
  have heq : replaceAll (getRawIndexHTML envBoth) headMarker (generateBlogMetadata [] entryA)
      = generateBlogMetadata [] entryA ++ bodyMarker := by rfl
  have hM : bodyMarker <:+:
      replaceAll (getRawIndexHTML envBoth) headMarker (generateBlogMetadata [] entryA) := by
    rw [heq]
    exact ⟨generateBlogMetadata [] entryA, [], by simp⟩
  have hmain := c10_known_slug_body envBoth [] (("a").toList) entryA (by rfl)
  ⟨by rfl, hmain.1, hmain.2 hM⟩

set_option maxRecDepth 3000 in
/-- C4: the sitemap handler emits, inside a single urlset root carrying the
sitemap, news, xhtml, mobile, image and video namespace declarations, exactly
one url element with one loc per catalog entry, in catalog source order,
joined by newlines; an empty catalog produces the urlset root with zero url
children, not an error, and the two-entry example of the spec produces exactly the
two expected elements in order. -/
theorem c4_sitemap_structure (env : Env) (base : Str) :
    (sitemapHandler env base).1
      = (200,
          urlsetOpen
            ++ List.intercalate nl ((getBlogForntmatters env).map (sitemapURLElement base))
            ++ urlsetClose)
    ∧ sitemapCode base [] = urlsetOpen ++ urlsetClose
    ∧ sitemapCode (("https://example.com").toList)
        [{ slug := ("a").toList, title := [], excerpt := [], featureImage := [] },
         { slug := ("b").toList, title := [], excerpt := [], featureImage := [] }]
      = urlsetOpen
          ++ (("<url><loc>https://example.com/blog/a</loc></url>").toList
              ++ nl ++ ("<url><loc>https://example.com/blog/b</loc></url>").toList)
          ++ urlsetClose := by
  refine ⟨rfl, ?_, by rfl⟩
  simp [sitemapCode, List.intercalate]

/-- The catalog entry whose slug contains an ampersand, for the C5
counterexample. -/
def entryAmp : BlogFrontmatter :=
  { slug := ("a&b").toList, title := [], excerpt := [], featureImage := [] }

set_option maxRecDepth 3000 in
/-- C5 counterexample: no XML escaping is applied to the slug: for a slug
containing an ampersand the sitemap output contains the raw slug text and does
not contain its XML-escaped form anywhere. -/
theorem c5_counterexample :
    ¬ (("a&amp;b").toList <:+: sitemapCode (("https://example.com").toList) [entryAmp])
    ∧ (("a&b").toList <:+: sitemapCode (("https://example.com").toList) [entryAmp]) := by
  constructor
  · decide
  · decide

/-- C5 amended: no escaping of any kind is applied to the slug (nor to the
instance URL): the loc content is the instance URL, the literal blog path
segment and the slug, character for character, and the slug appears verbatim
inside the url element. -/
theorem c5_slug_inserted_verbatim (base : Str) (b : BlogFrontmatter) :
    sitemapURLElement base b
      = ("<url><loc>").toList ++ base ++ ("/blog/").toList ++ b.slug ++ ("</loc></url>").toList
    ∧ b.slug <:+: sitemapURLElement base b := by
  constructor
  · simp [sitemapURLElement, List.append_assoc]
  · exact ⟨("<url><loc>").toList ++ base ++ ("/blog/").toList, ("</loc></url>").toList,
      by simp [sitemapURLElement, List.append_assoc]⟩

set_option maxRecDepth 3000 in
/-- C6: rendering a metadata model produces the head tags in exactly this
stable order — document title, meta description, Open Graph title,
description, image, type, then Twitter title, description, image, card-type,
site and creator — joined into a single newline-separated text block, with the
card type, site handle and creator tags fixed constants independent of the
model. -/
theorem c6_render_order (m : Metadata) :
    m.String =
      ("<title>").toList ++ m.title ++ ("</title>").toList ++ nl
      ++ ("<meta name=\"description\" content=\"").toList ++ m.description ++ ("\" />").toList ++ nl
      ++ ("<meta property=\"og:title\" content=\"").toList ++ m.title ++ ("\" />").toList ++ nl
      ++ ("<meta property=\"og:description\" content=\"").toList ++ m.description ++ ("\" />").toList ++ nl
      ++ ("<meta property=\"og:image\" content=\"").toList ++ m.imageURL ++ ("\" />").toList ++ nl
      ++ ("<meta property=\"og:type\" content=\"website\" />").toList ++ nl
      ++ ("<meta property=\"twitter:title\" content=\"").toList ++ m.title ++ ("\" />").toList ++ nl
      ++ ("<meta property=\"twitter:description\" content=\"").toList ++ m.description ++ ("\" />").toList ++ nl
      ++ ("<meta property=\"twitter:image\" content=\"").toList ++ m.imageURL ++ ("\" />").toList ++ nl
      ++ ("<meta name=\"twitter:card\" content=\"summary_large_image\" />").toList ++ nl
      ++ ("<meta name=\"twitter:site\" content=\"star-history.com\" />").toList ++ nl
      ++ ("<meta name=\"twitter:creator\" content=\"bytebase\" />").toList := by
  simp [Metadata.String, List.intercalate, List.append_assoc]

/-- The content-index JSON array with one malformed entry (missing its slug)
followed by a well-formed entry, for the C8 counterexample. -/
def mixedJson : Json :=
  Json.arr
    [ Json.obj [(titleKey, Json.str (("x").toList))]
    , Json.obj [(slugKey, Json.str (("a").toList))] ]

/-- C8 counterexample: a malformed entry (an object missing its slug) is not
skipped or ignored by the load: the catalog retains it as an entry with an
empty slug alongside the well-formed entry, so the catalog has two entries
rather than one. -/
theorem c8_counterexample :
    decodeBlogs (some mixedJson)
      = [ { slug := [], title := ("x").toList, excerpt := [], featureImage := [] }
        , { slug := ("a").toList, title := [], excerpt := [], featureImage := [] } ]
    ∧ (decodeBlogs (some mixedJson)).length = 2
    ∧ { slug := [], title := ("x").toList, excerpt := [], featureImage := [] }
        ∈ decodeBlogs (some mixedJson) := by
  exact ⟨by decide, by decide, by decide⟩

/-- C8 amended: the load is element-wise, so one bad entry never aborts it and
every well-formed entry is still present — but malformed entries are retained
rather than skipped: splitting the input array around any element splits the
catalog accordingly, a fully-formed object decodes to its four fields, and an
object missing its slug decodes to an entry with an empty slug that stays in
the catalog. -/
theorem c8_malformed_entries_kept (pre post : List Json) (j : Json) (s t e f : Str) :
    decodeBlogs (some (Json.arr (pre ++ j :: post)))
      = decodeBlogs (some (Json.arr pre)) ++ decodeBlog j :: decodeBlogs (some (Json.arr post))
    ∧ decodeBlog (Json.obj [(slugKey, Json.str s), (titleKey, Json.str t),
        (excerptKey, Json.str e), (featureImageKey, Json.str f)])
      = { slug := s, title := t, excerpt := e, featureImage := f }
    ∧ decodeBlog (Json.obj [(titleKey, Json.str t)])
      = { slug := [], title := t, excerpt := [], featureImage := [] } := by
  exact ⟨by simp [decodeBlogs], rfl, rfl⟩

end StarHistory
